import Mathlib

/-!
Verification of the domain-selector core
(`addons/web/static/src/core/domain_selector/domain_selector.js`).

The file shallowly embeds the `DomainSelector` component's logic: the
leaf mutation operations (`updateField`, `updateLeafOperator`,
`updateLeafValue`), the structural tree mutations (`insertRootLeaf`,
`insertLeaf`, `insertBranch`, `delete`, `updateBranchOperator`), the
field-descriptor resolution (`loadFieldDef`), the operator-list lookup
(`getOperatorsInfo`), and the rebuild entry point (`onPropsUpdated`).
The operator/field registries and the tree-node classes live in sibling
modules that are not part of the sources; those are modelled from the
specification and marked as such in their doc comments.
-/

set_option autoImplicit false

/-- A JavaScript runtime value, as far as leaf values and field inputs are
concerned: `undefined`, booleans, integers, strings and arrays. -/
inductive JSVal where
  | undefined : JSVal
  | bool : Bool → JSVal
  | num : Int → JSVal
  | str : String → JSVal
  | list : List JSVal → JSVal
deriving Repr

/-- Decidable equality of JavaScript values (structural, as `===` on
scalars and deep equality on arrays). -/
def JSVal.beq : JSVal → JSVal → Bool
  | .undefined, .undefined => true
  | .bool a, .bool b => a == b
  | .num a, .num b => a == b
  | .str a, .str b => a == b
  | .list xs, .list ys => beqList xs ys
  | _, _ => false
where
  beqList : List JSVal → List JSVal → Bool
    | [], [] => true
    | x :: xs, y :: ys => beq x y && beqList xs ys
    | _, _ => false

/-- JavaScript indexing `v[0]`: first element of an array, first character
of a string, `undefined` otherwise (also on an empty array or string). -/
def jsIndexZero : JSVal → JSVal
  | .list (x :: _) => x
  | .str s =>
    match s.data with
    | c :: _ => .str (String.mk [c])
    | [] => .undefined
  | _ => .undefined

/-- JavaScript `String.prototype.includes(sub)` on `s`, over explicit
character lists: true exactly when `sub` occurs as a contiguous substring
of `s`; in particular the empty string is included in every string. -/
def jsIncludes (s sub : List Char) : Bool :=
  (List.range (s.length + 1)).any fun i => sub.isPrefixOf (List.drop i s)

/-- JavaScript `toString()` of a value, as used for field inputs:
numbers print in decimal, arrays join their elements with commas. -/
def jsToString : JSVal → List Char
  | .undefined => "undefined".data
  | .bool b => (if b then "true" else "false").data
  | .num n => (toString n).data
  | .str s => s.data
  | .list xs => joinChars xs
where
  joinChars : List JSVal → List Char
    | [] => []
    | [x] => jsToString x
    | x :: y :: ys => jsToString x ++ [','] ++ joinChars (y :: ys)

/-- How many values an operator's leaf carries: no value, a single
scalar, or an ordered list of scalars. -/
inductive ValueMode where
  | nothing : ValueMode
  | single : ValueMode
  | multiple : ValueMode
deriving Repr, DecidableEq

/-- An operator descriptor from the Operator Registry: its key and its
value-cardinality class (`valueMode`). -/
structure Operator where
  key : String
  valueMode : ValueMode
deriving Repr, DecidableEq

/-- A field descriptor as returned by `loadFieldDef`: the field's value
type. -/
structure FieldDef where
  type : String
deriving Repr, DecidableEq

/-- The field metadata stored on a leaf node by `updateField`:
`\x7b ...fieldDef, name: field \x7d`. -/
structure FieldInfo where
  name : String
  type : String
deriving Repr, DecidableEq

namespace DomainSelectorOperators

/-- Modelled from the spec: the Operator Registry, a static table mapping
operator symbols to metadata; `=`/`in`/`set` and kin classified by their
value-cardinality class (missing module
`domain_selector_operators.js`). -/
def operatorRegistry : List Operator :=
  [⟨"=", .single⟩, ⟨"!=", .single⟩, ⟨"<", .single⟩, ⟨"<=", .single⟩,
   ⟨">", .single⟩, ⟨">=", .single⟩, ⟨"like", .single⟩, ⟨"ilike", .single⟩,
   ⟨"in", .multiple⟩, ⟨"not in", .multiple⟩,
   ⟨"set", .nothing⟩, ⟨"not set", .nothing⟩]

/-- Modelled from the spec: `findOperator(key)` looks the key up in the
Operator Registry and fails (classified condition) when the key is not
registered (missing module `domain_selector_operators.js`). -/
def findOperator (key : String) : Option Operator :=
  operatorRegistry.find? fun op => op.key == key

end DomainSelectorOperators

namespace DomainSelectorFields

/-- Modelled from the spec: `getOperatorsInfo(fieldType)` returns the
ordered sequence of operators registered for a field type (missing module
`domain_selector_fields.js`). -/
def getOperatorsInfo (fieldType : String) : List Operator :=
  match fieldType with
  | "integer" =>
    [⟨"=", .single⟩, ⟨"!=", .single⟩, ⟨"<", .single⟩, ⟨">", .single⟩,
     ⟨"in", .multiple⟩, ⟨"not in", .multiple⟩, ⟨"set", .nothing⟩]
  | "boolean" => [⟨"=", .single⟩, ⟨"!=", .single⟩, ⟨"set", .nothing⟩, ⟨"not set", .nothing⟩]
  | "char" => [⟨"=", .single⟩, ⟨"!=", .single⟩, ⟨"like", .single⟩, ⟨"ilike", .single⟩, ⟨"set", .nothing⟩]
  | _ => [⟨"=", .single⟩, ⟨"!=", .single⟩, ⟨"set", .nothing⟩, ⟨"not set", .nothing⟩]

/-- Modelled from the spec: `getDefaultFieldValue(fieldDef)` returns the
default value for a field's type (missing module
`domain_selector_fields.js`), keyed here on the type name. -/
def getDefaultFieldValue (fieldType : String) : JSVal :=
  match fieldType with
  | "integer" => .num 1
  | "boolean" => .bool true
  | _ => .str ""

end DomainSelectorFields

/-- A leaf node of the editable tree: stable identifier, resolved field
metadata, resolved operator and current value. -/
structure Leaf where
  id : Nat
  field : FieldInfo
  operator : Operator
  value : JSVal
deriving Repr

namespace DomainSelector

/-- The result of the external `fieldService.loadPath` call, collapsed to
what `loadFieldDef` consumes: the `isInvalid` flag and the resolved
descriptor `modelsInfo.at(-1).fieldDefs[names.at(-1)]`. -/
structure LoadPathResult where
  isInvalid : Bool
  fieldDef : Option FieldDef

/-- Embedding of `DomainSelector.loadFieldDef(resModel, field)`: the
`0`/`1` shorthands (via `"01".includes(field.toString())`) resolve to a
synthetic integer descriptor; non-strings and the empty string resolve to
`null`; otherwise the external field service is consulted. The service is
passed as a function argument `svc`. -/
def loadFieldDef (svc : String → LoadPathResult) (field : JSVal) : Option FieldDef :=
  if jsIncludes "01".data (jsToString field) then
    some ⟨"integer"⟩
  else
    match field with
    | .str s =>
      if s = "" then none
      else
        let r := svc s
        if r.isInvalid then none else r.fieldDef
    | _ => none

/-- Embedding of the body of `DomainSelector.updateLeafOperator` after
`findOperator` has resolved the new operator: sets the operator and
migrates the value when the value-cardinality class changed. -/
def applyLeafOperator (node : Leaf) (newOp : Operator) : Leaf :=
  let previousOperator := node.operator
  let node := { node with operator := newOp }
  if previousOperator.valueMode ≠ node.operator.valueMode then
    match node.operator.valueMode with
    | .nothing => { node with value := .bool false }
    | .multiple =>
      { node with
        value := if previousOperator.valueMode = .nothing then .list [] else .list [node.value] }
    | .single =>
      if previousOperator.valueMode = .nothing then
        { node with value := DomainSelectorFields.getDefaultFieldValue node.field.type }
      else
        { node with value := jsIndexZero node.value }
  else node

/-- Embedding of `DomainSelector.updateLeafOperator(node, operator)`:
resolves the operator key through `findOperator` (which fails on an
unregistered key) and applies the value migration. -/
def updateLeafOperator (node : Leaf) (operator : String) : Option Leaf :=
  (DomainSelectorOperators.findOperator operator).map (applyLeafOperator node)

/-- Embedding of `DomainSelector.updateLeafValue(node, value)`:
`node.value = value`, a direct overwrite. -/
def updateLeafValue (node : Leaf) (value : JSVal) : Leaf :=
  { node with value := value }

/-- Embedding of `DomainSelector.updateField(node, field)`: resolves the
new field's descriptor via `loadFieldDef`, then stores the descriptor
(with the field path as `name`), the first operator registered for the
new type, and the type's default value. `none` captures the JavaScript
failure modes (unresolved descriptor, empty operator list). -/
def updateField (svc : String → LoadPathResult) (node : Leaf) (field : String) :
    Option Leaf :=
  match loadFieldDef svc (.str field) with
  | none => none
  | some fieldDef =>
    match (DomainSelectorFields.getOperatorsInfo fieldDef.type).head? with
    | none => none
    | some op =>
      some { node with
        field := ⟨field, fieldDef.type⟩
        operator := op
        value := DomainSelectorFields.getDefaultFieldValue fieldDef.type }

/-- Embedding of `DomainSelector.getOperatorsInfo(node)`: the operators
registered for the node's field type, with the node's current operator
appended when its key is not among them. -/
def getOperatorsInfo (node : Leaf) : List Operator :=
  let operators := DomainSelectorFields.getOperatorsInfo node.field.type
  if operators.any (fun op => op.key == node.operator.key) then operators
  else operators ++ [node.operator]

end DomainSelector

/-- A node of the editable tree: a leaf (field/operator/value triple) or
a branch (logical connective `AND`/`OR` with an ordered list of
children). -/
inductive DomainNode where
  | leaf : Leaf → DomainNode
  | branch : Nat → String → List DomainNode → DomainNode
deriving Repr

/-- The stable identifier of a node. -/
def nodeId : DomainNode → Nat
  | .leaf l => l.id
  | .branch i _ _ => i

/-- Serialization of a leaf value back into expression text. -/
def serializeVal : JSVal → String
  | .undefined => "undefined"
  | .bool b => if b then "True" else "False"
  | .num n => toString n
  | .str s => "\"" ++ s ++ "\""
  | .list xs => "[" ++ serializeVals xs ++ "]"
where
  serializeVals : List JSVal → String
    | [] => ""
    | [x] => serializeVal x
    | x :: y :: ys => serializeVal x ++ ", " ++ serializeVals (y :: ys)

/-- Modelled from the spec: the connective token emitted in the
prefix-notation wire format for a branch operator. -/
def connToken (operator : String) : String :=
  if operator = "AND" then "\"&\"" else "\"|\""

mutual

/-- Modelled from the spec: `toDomain()` — a leaf emits its triple, a
branch with `k` children right-folds into `k - 1` binary connective
tokens followed by the children's tokens (missing module
`domain_selector_nodes.js`). -/
def nodeTokens : DomainNode → List String
  | .leaf l =>
    ["(\"" ++ l.field.name ++ "\", \"" ++ l.operator.key ++ "\", " ++ serializeVal l.value ++ ")"]
  | .branch _ operator children =>
    List.replicate (children.length - 1) (connToken operator) ++ nodesTokens children

/-- Token sequence of a list of sibling nodes, in order. -/
def nodesTokens : List DomainNode → List String
  | [] => []
  | n :: ns => nodeTokens n ++ nodesTokens ns

end

/-- Serialization of a tree back into the expression wire format:
`toDomain().toString()` on the root. -/
def serialize (root : DomainNode) : String :=
  "[" ++ String.intercalate ", " (nodeTokens root) ++ "]"

/-- Modelled from the spec: `insertAfter(siblingId, node)` on a branch's
children — insert immediately after the child whose id matches, no-op
when no direct child matches (missing module
`domain_selector_nodes.js`). -/
def insertAfterL (sid : Nat) (n : DomainNode) : List DomainNode → List DomainNode
  | [] => []
  | c :: cs => if nodeId c = sid then c :: n :: cs else c :: insertAfterL sid n cs

mutual

/-- Application of a children-list transformation at the branch addressed
by `pid`, modelling a JavaScript method call on a branch object aliased
inside the tree: the transformation receives the branch's operator and
children and returns the new operator and children. -/
def mapBranch (pid : Nat) (f : String → List DomainNode → String × List DomainNode) :
    DomainNode → DomainNode
  | .leaf l => .leaf l
  | .branch i operator children =>
    if i = pid then
      let r := f operator children
      .branch i r.1 r.2
    else .branch i operator (mapBranchL pid f children)

/-- `mapBranch` over a list of sibling nodes. -/
def mapBranchL (pid : Nat) (f : String → List DomainNode → String × List DomainNode) :
    List DomainNode → List DomainNode
  | [] => []
  | n :: ns => mapBranch pid f n :: mapBranchL pid f ns

end

mutual

/-- Application of a leaf transformation at the leaf addressed by `lid`,
modelling a JavaScript method call on a leaf object aliased inside the
tree. -/
def mapLeaf (lid : Nat) (f : Leaf → Leaf) : DomainNode → DomainNode
  | .leaf l => if l.id = lid then .leaf (f l) else .leaf l
  | .branch i operator children => .branch i operator (mapLeafL lid f children)

/-- `mapLeaf` over a list of sibling nodes. -/
def mapLeafL (lid : Nat) (f : Leaf → Leaf) : List DomainNode → List DomainNode
  | [] => []
  | n :: ns => mapLeaf lid f n :: mapLeafL lid f ns

end

/-- The mutable state of a `DomainSelector` between rebuilds: the tree
root, the default leaf (built from `defaultLeafValue`, cloned on every
insertion), and the next fresh node identifier. -/
structure SelectorState where
  root : DomainNode
  defaultLeaf : Leaf
  nextId : Nat

namespace DomainSelector

/-- Embedding of `DomainSelector.notifyChanges()`: the notification
payload handed to `props.update`, namely
`this.tree.root.toDomain().toString()`. -/
def notifyChanges (s : SelectorState) : String :=
  serialize s.root

/-- Modelled from the spec: `clone()` of the default leaf with a freshly
assigned identifier, otherwise identical field/operator/value (missing
module `domain_selector_nodes.js`). -/
def cloneDefaultLeaf (s : SelectorState) (i : Nat) : DomainNode :=
  .leaf { s.defaultLeaf with id := i }

/-- Embedding of `DomainSelector.createNewLeaf()`:
`this.defaultLeaf.clone()`. -/
def createNewLeaf (s : SelectorState) : DomainNode :=
  cloneDefaultLeaf s s.nextId

/-- Embedding of `DomainSelector.createNewBranch(operator)`: a new
branch holding two fresh clones of the default leaf; the branch and the
clones each receive a fresh identifier. -/
def createNewBranch (s : SelectorState) (operator : String) : DomainNode :=
  .branch (s.nextId + 2) operator [cloneDefaultLeaf s s.nextId, cloneDefaultLeaf s (s.nextId + 1)]

/-- Embedding of `DomainSelector.insertRootLeaf(parent)`: append a fresh
default-leaf clone to the addressed branch and notify. -/
def insertRootLeaf (s : SelectorState) (pid : Nat) : SelectorState × String :=
  let s' := { s with
    root := mapBranch pid (fun operator cs => (operator, cs ++ [createNewLeaf s])) s.root
    nextId := s.nextId + 1 }
  (s', notifyChanges s')

/-- Embedding of `DomainSelector.insertLeaf(parent, node)`: insert a
fresh default-leaf clone after the addressed child and notify. -/
def insertLeaf (s : SelectorState) (pid nid : Nat) : SelectorState × String :=
  let s' := { s with
    root := mapBranch pid (fun operator cs => (operator, insertAfterL nid (createNewLeaf s) cs)) s.root
    nextId := s.nextId + 1 }
  (s', notifyChanges s')

/-- Embedding of `DomainSelector.insertBranch(parent, node)`: insert,
after the addressed child, a new branch with the connective opposite to
the parent's and two fresh default-leaf clones, and notify. -/
def insertBranch (s : SelectorState) (pid nid : Nat) : SelectorState × String :=
  let s' := { s with
    root := mapBranch pid
      (fun operator cs =>
        let nextOperator := if operator = "AND" then "OR" else "AND"
        (operator, insertAfterL nid (createNewBranch s nextOperator) cs)) s.root
    nextId := s.nextId + 3 }
  (s', notifyChanges s')

/-- Embedding of `DomainSelector.delete(parent, node)`:
`parent.delete(node.id)` removes the addressed child, then notify
(child removal per the spec of the missing module
`domain_selector_nodes.js`). -/
def deleteNode (s : SelectorState) (pid nid : Nat) : SelectorState × String :=
  let s' := { s with
    root := mapBranch pid (fun operator cs => (operator, cs.filter (fun c => nodeId c ≠ nid))) s.root }
  (s', notifyChanges s')

/-- Embedding of `DomainSelector.updateBranchOperator(node, operator)`:
overwrite the addressed branch's connective and notify. -/
def updateBranchOperator (s : SelectorState) (nid : Nat) (operator : String) :
    SelectorState × String :=
  let s' := { s with root := mapBranch nid (fun _ cs => (operator, cs)) s.root }
  (s', notifyChanges s')

/-- Embedding of `DomainSelector.updateLeafValue(node, value)` at tree
level: overwrite the addressed leaf's value and notify. -/
def updateLeafValueM (s : SelectorState) (lid : Nat) (value : JSVal) :
    SelectorState × String :=
  let s' := { s with root := mapLeaf lid (fun l => updateLeafValue l value) s.root }
  (s', notifyChanges s')

/-- Embedding of `DomainSelector.updateLeafOperator(node, operator)` at
tree level: resolve the key through `findOperator`, migrate the
addressed leaf's value, and notify. -/
def updateLeafOperatorM (s : SelectorState) (lid : Nat) (operator : String) :
    Option (SelectorState × String) :=
  (DomainSelectorOperators.findOperator operator).map fun newOp =>
    let s' := { s with root := mapLeaf lid (fun l => applyLeafOperator l newOp) s.root }
    (s', notifyChanges s')

/-- Embedding of `DomainSelector.updateField(node, field)` at tree
level: resolve the field, overwrite the addressed leaf's
field/operator/value, and notify. -/
def updateFieldM (svc : String → LoadPathResult) (s : SelectorState) (lid : Nat)
    (field : String) : Option (SelectorState × String) :=
  match loadFieldDef svc (.str field) with
  | none => none
  | some fieldDef =>
    match (DomainSelectorFields.getOperatorsInfo fieldDef.type).head? with
    | none => none
    | some op =>
      let f : Leaf → Leaf := fun l =>
        { l with
          field := ⟨field, fieldDef.type⟩
          operator := op
          value := DomainSelectorFields.getDefaultFieldValue fieldDef.type }
      let s' := { s with root := mapLeaf lid f s.root }
      some (s', notifyChanges s')

end DomainSelector

/-- The observable tree state exposed by the component: the
`isSupported` flag and the root (absent before the first build). -/
structure TreeState where
  isSupported : Bool
  root : Option DomainNode
deriving Repr

/-- Modelled from the spec: the root produced by building the empty
domain with an empty field mapping, `build(new Domain([]), \x7b\x7d)` —
a branch with no children, the empty always-true domain (missing module
`domain_tree_builder.js`). -/
def emptyRoot : DomainNode :=
  .branch 0 "AND" []

/-- Embedding of `DomainSelector.onPropsUpdated(p)`: the whole
parse-and-build pipeline (`new Domain(p.value)`, `toList()`, the main
`treeBuilder.build`, and the default-leaf build) sits inside one `try`;
its outcome is abstracted as two `Except` values, one for the main tree
and one for the default leaf. On any failure the `catch` marks the tree
unsupported and rebuilds the root from the empty domain; no exception
escapes. -/
def onPropsUpdated (buildResult defaultLeafResult : Except String DomainNode) : TreeState :=
  match buildResult, defaultLeafResult with
  | .ok root, .ok _ => { isSupported := true, root := some root }
  | _, _ => { isSupported := false, root := some emptyRoot }

/-! Helper lemmas about the value migration in `applyLeafOperator`, one
per row of the migration table. -/

lemma applyLeafOperator_nothing (node : Leaf) (newOp : Operator)
    (hdiff : node.operator.valueMode ≠ newOp.valueMode) (hnew : newOp.valueMode = .nothing) :
    DomainSelector.applyLeafOperator node newOp =
      { node with operator := newOp, value := .bool false } := by
  have hd : node.operator.valueMode ≠ ValueMode.nothing := by rw [hnew] at hdiff; exact hdiff
  simp [DomainSelector.applyLeafOperator, hnew, hd]

lemma applyLeafOperator_nothing_multiple (node : Leaf) (newOp : Operator)
    (hold : node.operator.valueMode = .nothing) (hnew : newOp.valueMode = .multiple) :
    DomainSelector.applyLeafOperator node newOp =
      { node with operator := newOp, value := .list [] } := by
  simp [DomainSelector.applyLeafOperator, hnew, hold]

lemma applyLeafOperator_single_multiple (node : Leaf) (newOp : Operator)
    (hold : node.operator.valueMode = .single) (hnew : newOp.valueMode = .multiple) :
    DomainSelector.applyLeafOperator node newOp =
      { node with operator := newOp, value := .list [node.value] } := by
  simp [DomainSelector.applyLeafOperator, hnew, hold]

lemma applyLeafOperator_nothing_single (node : Leaf) (newOp : Operator)
    (hold : node.operator.valueMode = .nothing) (hnew : newOp.valueMode = .single) :
    DomainSelector.applyLeafOperator node newOp =
      { node with
        operator := newOp
        value := DomainSelectorFields.getDefaultFieldValue node.field.type } := by
  simp [DomainSelector.applyLeafOperator, hnew, hold]

lemma applyLeafOperator_multiple_single (node : Leaf) (newOp : Operator)
    (hold : node.operator.valueMode = .multiple) (hnew : newOp.valueMode = .single) :
    DomainSelector.applyLeafOperator node newOp =
      { node with operator := newOp, value := jsIndexZero node.value } := by
  simp [DomainSelector.applyLeafOperator, hnew, hold]

lemma applyLeafOperator_same (node : Leaf) (newOp : Operator)
    (hsame : node.operator.valueMode = newOp.valueMode) :
    DomainSelector.applyLeafOperator node newOp = { node with operator := newOp } := by
  simp [DomainSelector.applyLeafOperator, hsame]

/-- Claim C1: for every leaf whose current operator's valueMode differs
from the new operator's, `updateLeafOperator` migrates the value per the
migration table: to valueMode none the value becomes `false`; from none
to multiple it becomes `[]`; from single to multiple it becomes
`[oldValue]`; from none to single it becomes the field type's default
value; from multiple to single it becomes the first element of the old
list. -/
theorem updateLeafOperator_value_migration (node : Leaf) (key : String) (newOp : Operator)
    (hfind : DomainSelectorOperators.findOperator key = some newOp)
    (hdiff : node.operator.valueMode ≠ newOp.valueMode) :
    (newOp.valueMode = .nothing →
      DomainSelector.updateLeafOperator node key =
        some { node with operator := newOp, value := .bool false }) ∧
    (node.operator.valueMode = .nothing → newOp.valueMode = .multiple →
      DomainSelector.updateLeafOperator node key =
        some { node with operator := newOp, value := .list [] }) ∧
    (node.operator.valueMode = .single → newOp.valueMode = .multiple →
      DomainSelector.updateLeafOperator node key =
        some { node with operator := newOp, value := .list [node.value] }) ∧
    (node.operator.valueMode = .nothing → newOp.valueMode = .single →
      DomainSelector.updateLeafOperator node key =
        some { node with
               operator := newOp
               value := DomainSelectorFields.getDefaultFieldValue node.field.type }) ∧
    (∀ x xs, node.operator.valueMode = .multiple → newOp.valueMode = .single →
      node.value = .list (x :: xs) →
      DomainSelector.updateLeafOperator node key =
        some { node with operator := newOp, value := x }) := by
  unfold DomainSelector.updateLeafOperator
  rw [hfind]
  refine ⟨?_, ?_, ?_, ?_, ?_⟩
  · intro hnew; rw [Option.map_some', applyLeafOperator_nothing node newOp hdiff hnew]
  · intro hold hnew; rw [Option.map_some', applyLeafOperator_nothing_multiple node newOp hold hnew]
  · intro hold hnew; rw [Option.map_some', applyLeafOperator_single_multiple node newOp hold hnew]
  · intro hold hnew; rw [Option.map_some', applyLeafOperator_nothing_single node newOp hold hnew]
  · intro x xs hold hnew hval
    rw [Option.map_some', applyLeafOperator_multiple_single node newOp hold hnew, hval]
    rfl

/-- Claim C1 witness: the leaf `(age, "=", 10)` switched to `"in"`
(valueMode multiple) gets the value `[10]`. -/
theorem updateLeafOperator_value_migration_witness :
    DomainSelector.updateLeafOperator ⟨7, ⟨"age", "integer"⟩, ⟨"=", .single⟩, .num 10⟩ "in" =
      some ⟨7, ⟨"age", "integer"⟩, ⟨"in", .multiple⟩, .list [.num 10]⟩ :=
  (updateLeafOperator_value_migration ⟨7, ⟨"age", "integer"⟩, ⟨"=", .single⟩, .num 10⟩
    "in" ⟨"in", .multiple⟩ rfl (by decide)).2.2.1 rfl rfl

/-- Claim C2 counterexample: a leaf with operator `"in"` and the empty
list as value, switched to `"="` (valueMode single), gets the undefined
value (`value[0]` of an empty array), not the integer type's default
value. -/
theorem updateLeafOperator_empty_multiple_counterexample :
    (DomainSelector.updateLeafOperator
        ⟨0, ⟨"age", "integer"⟩, ⟨"in", .multiple⟩, .list []⟩ "=").map Leaf.value =
      some JSVal.undefined ∧
    JSVal.undefined ≠ DomainSelectorFields.getDefaultFieldValue "integer" := by
  constructor
  · rfl
  · intro h
    rw [show DomainSelectorFields.getDefaultFieldValue "integer" = JSVal.num 1 from rfl] at h
    exact JSVal.noConfusion h

/-- Claim C2, amended: for every leaf whose current operator has
valueMode multiple and whose value is the empty list, switching to an
operator of valueMode single sets the value to `value[0]` of the empty
list, i.e. the undefined value, not the field type's default value. -/
theorem updateLeafOperator_empty_multiple_to_single (node : Leaf) (key : String)
    (newOp : Operator)
    (hfind : DomainSelectorOperators.findOperator key = some newOp)
    (hold : node.operator.valueMode = .multiple) (hnew : newOp.valueMode = .single)
    (hval : node.value = .list []) :
    DomainSelector.updateLeafOperator node key =
      some { node with operator := newOp, value := JSVal.undefined } := by
  unfold DomainSelector.updateLeafOperator
  rw [hfind, Option.map_some',
    applyLeafOperator_multiple_single node newOp hold (by rw [hnew]), hval]
  rfl

/-- Claim C2 witness: the concrete empty-list leaf switched from `"in"`
to `"="` ends with the undefined value. -/
theorem updateLeafOperator_empty_multiple_to_single_witness :
    DomainSelector.updateLeafOperator ⟨3, ⟨"age", "integer"⟩, ⟨"in", .multiple⟩, .list []⟩ "=" =
      some ⟨3, ⟨"age", "integer"⟩, ⟨"=", .single⟩, JSVal.undefined⟩ :=
  updateLeafOperator_empty_multiple_to_single
    ⟨3, ⟨"age", "integer"⟩, ⟨"in", .multiple⟩, .list []⟩ "=" ⟨"=", .single⟩ rfl rfl rfl rfl

/-- Claim C3: whenever building the tree from the input expression fails
for any reason, the rebuild entry point marks the tree unsupported and
replaces the root with the empty root built from the empty domain; it is
a total function (no exception propagates), the resulting root is always
present (never a partial tree), and a supported result only arises from
a fully successful build, whose tree is exposed unchanged. -/
theorem onPropsUpdated_fallback (buildResult defaultLeafResult : Except String DomainNode) :
    (∀ e, buildResult = .error e →
      onPropsUpdated buildResult defaultLeafResult = ⟨false, some emptyRoot⟩) ∧
    (∀ e, defaultLeafResult = .error e →
      onPropsUpdated buildResult defaultLeafResult = ⟨false, some emptyRoot⟩) ∧
    (∃ r, (onPropsUpdated buildResult defaultLeafResult).root = some r) ∧
    ((onPropsUpdated buildResult defaultLeafResult).isSupported = true →
      ∃ t, buildResult = .ok t ∧
        (onPropsUpdated buildResult defaultLeafResult).root = some t) := by
  cases buildResult <;> cases defaultLeafResult <;>
    simp [onPropsUpdated]

/-- Claim C3 witness: a failed parse yields the unsupported state with
the empty root. -/
theorem onPropsUpdated_fallback_witness :
    onPropsUpdated (Except.error "parse failure") (Except.ok emptyRoot) =
      ⟨false, some emptyRoot⟩ :=
  (onPropsUpdated_fallback (Except.error "parse failure") (Except.ok emptyRoot)).1
    "parse failure" rfl

/-- Claim C4: for every leaf node, the operator list returned by
`getOperatorsInfo(node)` contains an operator with the node's current
operator key; when the key is not among the operators registered for the
node's field type, the current operator is appended to the returned list
rather than dropped. -/
theorem getOperatorsInfo_keeps_current (node : Leaf) :
    (∃ op ∈ DomainSelector.getOperatorsInfo node, op.key = node.operator.key) ∧
    (node.operator.key ∉
        (DomainSelectorFields.getOperatorsInfo node.field.type).map Operator.key →
      DomainSelector.getOperatorsInfo node =
        DomainSelectorFields.getOperatorsInfo node.field.type ++ [node.operator]) := by
  unfold DomainSelector.getOperatorsInfo
  by_cases h : (DomainSelectorFields.getOperatorsInfo node.field.type).any
      (fun op => op.key == node.operator.key)
  · rw [if_pos h]
    simp only [List.any_eq_true, beq_iff_eq] at h
    obtain ⟨op, hmem, hkey⟩ := h
    refine ⟨⟨op, hmem, hkey⟩, ?_⟩
    intro hnot
    apply absurd _ hnot
    rw [← hkey]
    exact List.mem_map_of_mem Operator.key hmem
  · rw [if_neg h]
    refine ⟨⟨node.operator, List.mem_append_right _ (List.mem_singleton.mpr rfl), rfl⟩,
      fun _ => rfl⟩

/-- Claim C4 witness: a boolean-typed leaf carrying the foreign operator
`"in"` still sees it, appended after the boolean operators. -/
theorem getOperatorsInfo_keeps_current_witness :
    (∃ op ∈ DomainSelector.getOperatorsInfo ⟨2, ⟨"flag", "boolean"⟩, ⟨"in", .multiple⟩, .list []⟩,
        op.key = "in") ∧
    DomainSelector.getOperatorsInfo ⟨2, ⟨"flag", "boolean"⟩, ⟨"in", .multiple⟩, .list []⟩ =
      DomainSelectorFields.getOperatorsInfo "boolean" ++ [⟨"in", .multiple⟩] := by
  have h := getOperatorsInfo_keeps_current ⟨2, ⟨"flag", "boolean"⟩, ⟨"in", .multiple⟩, .list []⟩
  exact ⟨h.1, h.2 (by decide)⟩

/-- Claim C5: for the field inputs `0` and `1` (the always-true /
always-false leaf shorthands), `loadFieldDef` returns the synthetic
integer descriptor without consulting the external field-metadata
service — the result is the same for every service. -/
theorem loadFieldDef_shorthand_integer (svc : String → DomainSelector.LoadPathResult) :
    DomainSelector.loadFieldDef svc (.num 0) = some ⟨"integer"⟩ ∧
    DomainSelector.loadFieldDef svc (.num 1) = some ⟨"integer"⟩ :=
  ⟨rfl, rfl⟩

/-- Claim C6: `updateField(node, field)` resolves the new field's
descriptor, then sets the node's operator to the first operator
registered for the new field's type and the node's value to the default
value for that field type. -/
theorem updateField_resets (svc : String → DomainSelector.LoadPathResult)
    (node : Leaf) (field : String) (fieldDef : FieldDef) (op : Operator)
    (hload : DomainSelector.loadFieldDef svc (.str field) = some fieldDef)
    (hop : (DomainSelectorFields.getOperatorsInfo fieldDef.type).head? = some op) :
    DomainSelector.updateField svc node field =
      some { node with
        field := ⟨field, fieldDef.type⟩
        operator := op
        value := DomainSelectorFields.getDefaultFieldValue fieldDef.type } := by
  simp [DomainSelector.updateField, hload, hop]

/-- Claim C6 witness: switching an integer leaf to a boolean field
resets it to the boolean default operator `"="` and default value
`true`. -/
theorem updateField_resets_witness :
    DomainSelector.updateField (fun _ => ⟨false, some ⟨"boolean"⟩⟩)
        ⟨4, ⟨"age", "integer"⟩, ⟨"<", .single⟩, .num 3⟩ "active" =
      some ⟨4, ⟨"active", "boolean"⟩, ⟨"=", .single⟩, .bool true⟩ :=
  updateField_resets (fun _ => ⟨false, some ⟨"boolean"⟩⟩)
    ⟨4, ⟨"age", "integer"⟩, ⟨"<", .single⟩, .num 3⟩ "active" ⟨"boolean"⟩ ⟨"=", .single⟩ rfl rfl

/-- Claim C7: every mutation operation (`insertRootLeaf`, `insertLeaf`,
`insertBranch`, `delete`, `updateBranchOperator`, `updateLeafValue`,
`updateLeafOperator`, `updateField`) ends by re-serializing the root and
notifying the external owner with the new serialized expression string;
the operator- and field-resolving mutations succeed whenever their
inputs satisfy the constraints the UI guarantees (a registered operator
key, a resolvable field), so the mutation raises no user-visible
error. -/
theorem mutations_notify (svc : String → DomainSelector.LoadPathResult)
    (s : SelectorState) (pid nid lid : Nat) (operator field : String) (value : JSVal) :
    (DomainSelector.insertRootLeaf s pid).2 =
      serialize (DomainSelector.insertRootLeaf s pid).1.root ∧
    (DomainSelector.insertLeaf s pid nid).2 =
      serialize (DomainSelector.insertLeaf s pid nid).1.root ∧
    (DomainSelector.insertBranch s pid nid).2 =
      serialize (DomainSelector.insertBranch s pid nid).1.root ∧
    (DomainSelector.deleteNode s pid nid).2 =
      serialize (DomainSelector.deleteNode s pid nid).1.root ∧
    (DomainSelector.updateBranchOperator s nid operator).2 =
      serialize (DomainSelector.updateBranchOperator s nid operator).1.root ∧
    (DomainSelector.updateLeafValueM s lid value).2 =
      serialize (DomainSelector.updateLeafValueM s lid value).1.root ∧
    (∀ opr, DomainSelectorOperators.findOperator operator = some opr →
      ∃ s' msg, DomainSelector.updateLeafOperatorM s lid operator = some (s', msg) ∧
        msg = serialize s'.root) ∧
    (∀ fieldDef op, DomainSelector.loadFieldDef svc (.str field) = some fieldDef →
      (DomainSelectorFields.getOperatorsInfo fieldDef.type).head? = some op →
      ∃ s' msg, DomainSelector.updateFieldM svc s lid field = some (s', msg) ∧
        msg = serialize s'.root) := by
  refine ⟨rfl, rfl, rfl, rfl, rfl, rfl, ?_, ?_⟩
  · intro opr h
    unfold DomainSelector.updateLeafOperatorM
    rw [h, Option.map_some']
    exact ⟨_, _, rfl, rfl⟩
  · intro fieldDef op h1 h2
    simp only [DomainSelector.updateFieldM, h1, h2]
    exact ⟨_, _, rfl, rfl⟩

/-- Claim C7 witness: the operator mutation on a concrete one-leaf tree
succeeds and emits the serialization of its resulting root. -/
theorem mutations_notify_witness :
    ∃ s' msg,
      DomainSelector.updateLeafOperatorM
          ⟨.branch 0 "AND" [.leaf ⟨1, ⟨"id", "integer"⟩, ⟨"=", .single⟩, .num 1⟩],
           ⟨1, ⟨"id", "integer"⟩, ⟨"=", .single⟩, .num 1⟩, 2⟩ 1 "in" =
        some (s', msg) ∧ msg = serialize s'.root :=
  (mutations_notify (fun _ => ⟨true, none⟩)
      ⟨.branch 0 "AND" [.leaf ⟨1, ⟨"id", "integer"⟩, ⟨"=", .single⟩, .num 1⟩],
       ⟨1, ⟨"id", "integer"⟩, ⟨"=", .single⟩, .num 1⟩, 2⟩
      0 1 1 "in" "x" JSVal.undefined).2.2.2.2.2.2.1 ⟨"in", .multiple⟩ rfl

/-- Claim C8: if the new operator passed to `updateLeafOperator` has the
same valueMode as the current operator, the leaf's value is left
unchanged (only the operator is replaced), and `updateLeafValue`
overwrites the value directly without reshaping it. -/
theorem updateLeafOperator_same_mode_frame (node : Leaf) (key : String) (newOp : Operator)
    (value : JSVal)
    (hfind : DomainSelectorOperators.findOperator key = some newOp)
    (hsame : node.operator.valueMode = newOp.valueMode) :
    DomainSelector.updateLeafOperator node key = some { node with operator := newOp } ∧
    DomainSelector.updateLeafValue node value = { node with value := value } := by
  constructor
  · unfold DomainSelector.updateLeafOperator
    rw [hfind, Option.map_some', applyLeafOperator_same node newOp hsame]
  · rfl

/-- Claim C8 witness: switching `"="` to `"<"` (both single) leaves the
value `10` in place, and a direct value overwrite stores `42`
unchanged. -/
theorem updateLeafOperator_same_mode_frame_witness :
    DomainSelector.updateLeafOperator ⟨5, ⟨"age", "integer"⟩, ⟨"=", .single⟩, .num 10⟩ "<" =
      some ⟨5, ⟨"age", "integer"⟩, ⟨"<", .single⟩, .num 10⟩ ∧
    DomainSelector.updateLeafValue ⟨5, ⟨"age", "integer"⟩, ⟨"=", .single⟩, .num 10⟩ (.num 42) =
      ⟨5, ⟨"age", "integer"⟩, ⟨"=", .single⟩, .num 42⟩ :=
  updateLeafOperator_same_mode_frame ⟨5, ⟨"age", "integer"⟩, ⟨"=", .single⟩, .num 10⟩ "<"
    ⟨"<", .single⟩ (.num 42) rfl rfl

/-- Claim C9: for the empty-string field path, `loadFieldDef` returns
the synthetic integer descriptor rather than null for every service,
because the 0/1-shorthand substring check matches the empty string
before the non-string/empty guard is reached. -/
theorem loadFieldDef_empty_string_integer (svc : String → DomainSelector.LoadPathResult) :
    jsIncludes "01".data (jsToString (.str "")) = true ∧
    DomainSelector.loadFieldDef svc (.str "") = some ⟨"integer"⟩ :=
  ⟨rfl, rfl⟩

lemma insertAfterL_append (nid : Nat) (n : DomainNode) (cs₁ : List DomainNode)
    (c : DomainNode) (cs₂ : List DomainNode) (hc : nodeId c = nid)
    (hnot : ∀ c' ∈ cs₁, nodeId c' ≠ nid) :
    insertAfterL nid n (cs₁ ++ c :: cs₂) = cs₁ ++ c :: n :: cs₂ := by
  induction cs₁ with
  | nil => simp [insertAfterL, hc]
  | cons d ds ih =>
    have hd : nodeId d ≠ nid := hnot d (by simp)
    simp only [List.cons_append, insertAfterL, if_neg hd, List.append_eq]
    rw [ih (fun x hx => hnot x (by simp [hx]))]

/-- Claim C10: `insertBranch(parent, node)` inserts, immediately after
the addressed child, a new branch whose operator is the opposite
connective of the parent's (`"OR"` if the parent's operator is `"AND"`,
otherwise `"AND"`) and whose children are exactly two fresh clones of
the default leaf, carrying the two freshly allocated identifiers. -/
theorem insertBranch_opposite (s : SelectorState) (pid nid : Nat) (pop : String)
    (cs₁ cs₂ : List DomainNode) (c : DomainNode)
    (hroot : s.root = .branch pid pop (cs₁ ++ c :: cs₂))
    (hc : nodeId c = nid) (hnot : ∀ c' ∈ cs₁, nodeId c' ≠ nid) :
    (DomainSelector.insertBranch s pid nid).1.root =
      .branch pid pop (cs₁ ++ c ::
        DomainNode.branch (s.nextId + 2) (if pop = "AND" then "OR" else "AND")
          [.leaf { s.defaultLeaf with id := s.nextId },
           .leaf { s.defaultLeaf with id := s.nextId + 1 }] :: cs₂) := by
  simp only [DomainSelector.insertBranch, hroot, mapBranch, if_pos,
    DomainSelector.createNewBranch, DomainSelector.cloneDefaultLeaf]
  rw [insertAfterL_append nid _ cs₁ c cs₂ hc hnot]

/-- Claim C10 witness: on a concrete AND tree with one leaf, inserting a
branch after that leaf adds an OR branch holding two default-leaf clones
with the fresh identifiers 10 and 11. -/
theorem insertBranch_opposite_witness :
    (DomainSelector.insertBranch
        ⟨.branch 7 "AND" [.leaf ⟨3, ⟨"id", "integer"⟩, ⟨"=", .single⟩, .num 1⟩],
         ⟨0, ⟨"id", "integer"⟩, ⟨"=", .single⟩, .num 1⟩, 10⟩ 7 3).1.root =
      .branch 7 "AND"
        [.leaf ⟨3, ⟨"id", "integer"⟩, ⟨"=", .single⟩, .num 1⟩,
         .branch 12 "OR"
           [.leaf ⟨10, ⟨"id", "integer"⟩, ⟨"=", .single⟩, .num 1⟩,
            .leaf ⟨11, ⟨"id", "integer"⟩, ⟨"=", .single⟩, .num 1⟩]] := by
  simpa using insertBranch_opposite
    ⟨.branch 7 "AND" [.leaf ⟨3, ⟨"id", "integer"⟩, ⟨"=", .single⟩, .num 1⟩],
     ⟨0, ⟨"id", "integer"⟩, ⟨"=", .single⟩, .num 1⟩, 10⟩ 7 3 "AND"
    [] [] (.leaf ⟨3, ⟨"id", "integer"⟩, ⟨"=", .single⟩, .num 1⟩) rfl rfl
    (by simp)

